import Mathlib

/-!
Verification development for the Ekho backend core
(`app/services/veo_service.py`, `app/services/storage_service.py`,
`app/services/adk_service.py`, `app/services/mongodb_service.py`).

The Python services are embedded shallowly:
* job records (`self.jobs` dicts) become the `Job` structure, dict keys that
  may be absent become `Option` fields;
* every outbound network call (GCS upload, Vertex predictLongRunning,
  fetchPredictOperation, Mongo/Snowflake writes) is replaced by an explicit
  oracle argument, and the calls actually attempted are returned as an
  explicit effect trace;
* loosely structured JSON payloads become the `JVal` inductive;
* Python truthiness, `dict.get`, `or`-chaining and `setdefault` are embedded
  by the helpers below.
-/

namespace Ekho

/-- JSON-like values, for the loosely structured remote operation payloads
(`resp.json()` results, Mongo documents). Numbers do not occur in any code
path the claims touch, so they are omitted. -/
inductive JVal where
  | null : JVal
  | bool : Bool → JVal
  | str : String → JVal
  | arr : List JVal → JVal
  | obj : List (String × JVal) → JVal
  deriving Repr

/-- Python truthiness of a `JVal` (`None`, `False`, `""`, `[]`, `{}` are
falsy). -/
def truthy : JVal → Bool
  | .null => false
  | .bool b => b
  | .str s => !s.isEmpty
  | .arr xs => !xs.isEmpty
  | .obj fs => !fs.isEmpty

/-- Python `d.get(k)`: the stored value, or `None` when the key is absent.
Applied to a non-dict value it returns `null` (the Python code only applies
`.get` to dict payloads). -/
def dget (v : JVal) (k : String) : JVal :=
  match v with
  | .obj fs => match fs.lookup k with
    | some x => x
    | none => .null
  | _ => .null

/-- Python `d.get(k, dflt)`. -/
def dgetD (v : JVal) (k : String) (dflt : JVal) : JVal :=
  match v with
  | .obj fs => match fs.lookup k with
    | some x => x
    | none => dflt
  | _ => dflt

/-- Python `k in d` on a dict. -/
def hasKey (v : JVal) (k : String) : Bool :=
  match v with
  | .obj fs => (fs.lookup k).isSome
  | _ => false

/-- Python `a or b`: `a` when truthy, else `b`. -/
def pyOr (a b : JVal) : JVal := if truthy a then a else b

/-! String primitives. Python string operations are embedded over the
character list of the string (structural recursion, so that closed
instances evaluate); each is extensionally the Lean core operation of the
same name. -/

/-- Python `s.startswith(pre)`. -/
def strStartsWith (s pre : String) : Bool := pre.toList.isPrefixOf s.toList

/-- Python `s.endswith(suff)`. -/
def strEndsWith (s suff : String) : Bool := suff.toList.isSuffixOf s.toList

/-- Python `s.lower()` (ASCII fragment; every literal it is compared
against is ASCII). -/
def strToLower (s : String) : String := ⟨s.toList.map Char.toLower⟩

def containsSubAux (pat : List Char) : List Char → Bool
  | [] => pat.isPrefixOf []
  | c :: cs => pat.isPrefixOf (c :: cs) || containsSubAux pat cs

/-- Python substring test `pat in s`. -/
def containsStr (s pat : String) : Bool := containsSubAux pat.toList s.toList

/-- Python `s.split(sep, 1)` for a one-character separator: `none` when
the separator does not occur (Python returns the one-element list), else
the parts before and after its first occurrence. -/
def splitFirst (sep : Char) : List Char → Option (List Char × List Char)
  | [] => none
  | c :: cs =>
    if c = sep then some ([], cs)
    else
      match splitFirst sep cs with
      | some (pre, post) => some (c :: pre, post)
      | none => none

/-- `VeoServiceREST._find_any_video_url`: is a string a plausible video
locator — `gs://` or `http` scheme and a known media extension somewhere in
it? -/
def isVideoUrlStr (v : String) : Bool :=
  (strStartsWith v "gs://" || strStartsWith v "http") &&
    ([".mp4", ".mov", ".webm", ".mkv"].any (fun ext => containsStr v ext))

/-- The direct-hit test of the dict branch of `_find_any_video_url`:
`isinstance(v, str)` and the locator pattern matches. -/
def strHit : JVal → Option String
  | .str s => if isVideoUrlStr s then some s else none
  | _ => none

mutual

/-- `VeoServiceREST._find_any_video_url`: recursive scan of an untyped
payload. Dict branch: for each value in order, return it when it is a
matching string, else recurse into it; list branch: recurse into each item
(so a bare string directly inside a list is never returned, exactly as in
the Python, where the string falls through both `isinstance` checks). -/
def find_any_video_url : JVal → Option String
  | .obj fs => favFields fs
  | .arr xs => favItems xs
  | _ => none

def favFields : List (String × JVal) → Option String
  | [] => none
  | (_, v) :: rest =>
    match strHit v with
    | some s => some s
    | none =>
      match find_any_video_url v with
      | some s => some s
      | none => favFields rest

def favItems : List JVal → Option String
  | [] => none
  | v :: rest =>
    match find_any_video_url v with
    | some s => some s
    | none => favItems rest

end

/-! ## Job records and the Veo service (`app/services/veo_service.py`) -/

/-- One entry of `VeoServiceREST.jobs`. Every key the service ever writes is
a field; `Option` marks keys whose value may be `None` (or, for `progress`,
a key that `setdefault` would treat as absent). Timestamps are abstract
`Nat` ticks supplied by the caller in place of `datetime.now()`. The
`error` field can hold either an exception string or the raw remote error
payload (`job["error"] = op["error"]`), hence `Option JVal`. -/
structure Job where
  job_id : String
  user_id : String
  status : String
  operation : Option String
  progress : Option Nat
  video_url : Option String
  error : Option JVal
  created_at : Nat
  updated_at : Nat
  deriving Repr

/-- `guess_mime` from `veo_service.py`. -/
def guess_mime (uri : String) : String :=
  if strEndsWith (strToLower uri) ".png" then "image/png" else "image/jpeg"

/-- One element of the `referenceImages` array of the predictLongRunning
request body (its constant `referenceType: "asset"` wrapper is dropped). -/
structure ReferenceImage where
  gcsUri : String
  mimeType : String
  deriving Repr, DecidableEq

/-- The predictLongRunning request body built in `_create_job`. -/
structure RequestBody where
  prompt : String
  referenceImages : List ReferenceImage
  storageUri : String
  durationSeconds : Nat
  aspectRatio : String
  personGeneration : String
  sampleCount : Nat
  deriving Repr, DecidableEq

/-- The outbound network calls `_create_job` can attempt, in order:
the GCS reference-image upload (`storage_service.upload_reference_images`)
and the Vertex submission (`_call_predict_long_running`). -/
inductive NetCall where
  | uploadImages : List String → NetCall
  | submitLongRunning : RequestBody → NetCall
  deriving Repr, DecidableEq

/-- The failed-job record built in the `except` branch of `_create_job`. -/
def mkFailedJob (job_id user_id e : String) (now now2 : Nat) : Job :=
  { job_id := job_id, user_id := user_id, status := "failed",
    operation := none, progress := some 0, video_url := none,
    error := some (.str e), created_at := now, updated_at := now2 }

/-- The predictLongRunning request body `_create_job` builds from the
prompt, the (uploaded or supplied) GCS URIs, the output prefix derived
from the configured output location and the job id, and the requested
duration. -/
def mkBody (output_storage_uri prompt job_id : String)
    (gcs_uris : List String) (duration_seconds : Nat) : RequestBody :=
  { prompt := prompt
    referenceImages := gcs_uris.map fun uri =>
      { gcsUri := uri, mimeType := guess_mime uri }
    storageUri := output_storage_uri ++ job_id ++ "/"
    durationSeconds := duration_seconds
    aspectRatio := "16:9"
    personGeneration := "allow_adult"
    sampleCount := 1 }

/-- The job record stored on successful submission. -/
def mkSubmittedJob (job_id user_id operation_name : String) (now : Nat) :
    Job :=
  { job_id := job_id, user_id := user_id, status := "submitted",
    operation := some operation_name, progress := some 0,
    video_url := none, error := none, created_at := now, updated_at := now }

/-- The tail of the `try` block of `_create_job`, from the
`if not gcs_uris` check on: `refs` is the outcome of the
reference-gathering step (an exception there, like the completed upload
call raising, lands in the same `except` branch), `calls` the network
calls attempted so far. -/
def create_job_after_refs (output_storage_uri user_id prompt job_id : String)
    (duration_seconds : Nat) (now now2 : Nat)
    (submit : RequestBody → Except String String)
    (refs : Except String (List String)) (calls : List NetCall) :
    Job × List NetCall :=
  match refs with
  | .error e => (mkFailedJob job_id user_id e now now2, calls)
  | .ok gcs_uris =>
    if gcs_uris.isEmpty then
      (mkFailedJob job_id user_id
        "No valid reference images were found or uploaded." now now2, calls)
    else
      let body := mkBody output_storage_uri prompt job_id gcs_uris
        duration_seconds
      match submit body with
      | .error e =>
        (mkFailedJob job_id user_id e now now2,
         calls ++ [.submitLongRunning body])
      | .ok operation_name =>
        (mkSubmittedJob job_id user_id operation_name now,
         calls ++ [.submitLongRunning body])

/-- `VeoServiceREST._create_job`.
Oracles stand for the two remote calls: `upload` for
`storage_service.upload_reference_images` (which can raise before its
uploads start, hence `Except`) and `submit` for
`_call_predict_long_running` (`Except.error` = any exception: network,
auth, non-200, missing operation name). `output_storage_uri` is the
constructor field (already `/`-terminated); `job_id`, `now`, `now2` stand
for the generated id and the two `datetime.now()` calls. The second
component is the trace of network calls attempted.
`is_gcs_uris = bool(face_captures) and face_captures[0].startswith("gs://")`
is the raw-vs-stable classification; the empty list falls into the
`raise RuntimeError("No avatar reference images ...")` branch. -/
def create_job (output_storage_uri user_id prompt : String)
    (face_captures : List String) (duration_seconds : Nat)
    (job_id : String) (now now2 : Nat)
    (upload : List String → Except String (List String))
    (submit : RequestBody → Except String String) : Job × List NetCall :=
  match face_captures with
  | [] =>
    (mkFailedJob job_id user_id
      "No avatar reference images found for video generation." now now2, [])
  | first :: _ =>
    if strStartsWith first "gs://" then
      create_job_after_refs output_storage_uri user_id prompt job_id
        duration_seconds now now2 submit (.ok (face_captures.take 3)) []
    else
      create_job_after_refs output_storage_uri user_id prompt job_id
        duration_seconds now now2 submit (upload (face_captures.take 3))
        [.uploadImages (face_captures.take 3)]

/-- `VeoServiceREST.generate_avatar_video`: clamps to 8 seconds and
delegates to `_create_job` (the `duration` argument is accepted but
ignored, as in the source). -/
def generate_avatar_video (output_storage_uri user_id prompt : String)
    (reference_images : List String) (duration : Nat)
    (job_id : String) (now now2 : Nat)
    (upload : List String → Except String (List String))
    (submit : RequestBody → Except String String) : Job × List NetCall :=
  create_job output_storage_uri user_id prompt reference_images 8
    job_id now now2 upload submit

/-- `StorageService._get_signed_url_sync` / `get_signed_url`: exchange a
`gs://bucket/path` locator for a time-limited HTTPS URL; anything that is
not a well-formed `gs://` locator is returned unchanged. `sign` stands for
`blob.generate_signed_url` (bucket, blob name ↦ signed URL). -/
def get_signed_url (sign : String → String → String) (gcs_uri : String) :
    String :=
  if !strStartsWith gcs_uri "gs://" then gcs_uri
  else
    match splitFirst '/' (gcs_uri.toList.drop 5) with
    | none => gcs_uri
    | some (bucket, blob) => sign ⟨bucket⟩ ⟨blob⟩

/-- First string of a Python `or`-chain over `v0.get(k)` lookups: a value
participates only when it is a truthy (non-empty) string. (A truthy
non-string value in one of these slots would crash the Python at
`video_uri.startswith`; such payloads are outside the model.) -/
def getTruthyStr (v : JVal) (k : String) : Option String :=
  match dget v k with
  | .str s => if s.isEmpty then none else some s
  | _ => none

/-- Python `a or b` on `Option String` values whose `some`s are truthy. -/
def pyOrS (a b : Option String) : Option String :=
  match a with
  | some s => some s
  | none => b

/-- `resp = op.get("response") or {}` in `get_job_status`. -/
def respOf (op : JVal) : JVal := pyOr (dget op "response") (.obj [])

/-- The well-known-field probe of `get_job_status`:
`videos = resp.get("videos") or resp.get("generatedVideos") or
resp.get("generatedSamples", [])`, then
`videos[0].get("gcsUri") or .get("uri") or .get("videoUri")` when `videos`
is truthy. (When `videos` is truthy but not a list of dicts the Python
indexing would raise; the model yields `none` there.) -/
def wellknown_video_uri (op : JVal) : Option String :=
  let resp := respOf op
  let videos := pyOr (dget resp "videos")
    (pyOr (dget resp "generatedVideos")
      (dgetD resp "generatedSamples" (.arr [])))
  if truthy videos then
    match videos with
    | .arr (v0 :: _) =>
      pyOrS (getTruthyStr v0 "gcsUri")
        (pyOrS (getTruthyStr v0 "uri") (getTruthyStr v0 "videoUri"))
    | _ => none
  else none

/-- The full artifact-locator extraction of the done-success branch of
`get_job_status`: well-known fields first, then
`_find_any_video_url(resp) or _find_any_video_url(op)`. -/
def extract_video_uri (op : JVal) : Option String :=
  match wellknown_video_uri op with
  | some u => some u
  | none =>
    match find_any_video_url (respOf op) with
    | some u => some u
    | none => find_any_video_url op

/-- `VeoServiceREST.get_job_status`, for a job already looked up in
`self.jobs` (the not-found `ValueError` is handled by the lookup wrapper
`get_job_status_in`). `poll` is the outcome of
`_fetch_predict_operation` (`Except.error` = any exception), `sign` the
signed-URL oracle, `now` the `datetime.now()` tick. Returns the updated
stored record and whether the remote poll was invoked. -/
def get_job_status (job : Job) (poll : Except String JVal)
    (sign : String → String → String) (now : Nat) : Job × Bool :=
  match job.operation with
  | none => (job, false)
  | some _ =>
    match poll with
    | .error e =>
      ({ job with status := "error", error := some (.str e),
                  updated_at := now }, true)
    | .ok op =>
      let job := { job with updated_at := now }
      if !truthy (dget op "done") then
        -- still running: `job.setdefault("progress", 10)`
        ({ job with status := "processing",
                    progress := some (job.progress.getD 10) }, true)
      else if hasKey op "error" && truthy (dget op "error") then
        ({ job with status := "failed", error := some (dget op "error"),
                    progress := some 0 }, true)
      else
        -- done successfully; `job.setdefault("error", None)` is a no-op
        -- because every record this service stores has the key.
        let video_uri :=
          match extract_video_uri op with
          | some u =>
            some (if strStartsWith u "gs://" then get_signed_url sign u else u)
          | none => none
        ({ job with status := "completed", progress := some 100,
                    video_url := video_uri }, true)

/-- `get_job_status` including the registry lookup:
`ValueError` when the id is unknown. -/
def get_job_status_in (jobs : List (String × Job)) (job_id : String)
    (poll : Except String JVal) (sign : String → String → String)
    (now : Nat) : Except String (Job × Bool) :=
  match jobs.lookup job_id with
  | none => .error ("Job " ++ job_id ++ " not found")
  | some job => .ok (get_job_status job poll sign now)

/-- `VeoServiceREST.list_user_jobs`. -/
def list_user_jobs (jobs : List (String × Job)) (user_id : String) :
    List Job :=
  (jobs.map Prod.snd).filter fun j => j.user_id = user_id

/-! ## Artifact store (`app/services/storage_service.py`) -/

/-- One iteration of the task-building loop of
`StorageService.upload_reference_images`: skip empty entries, split a
`data:image` data-URL at its first comma (raising the Python
`ValueError` when there is none), pick extension from the header, skip
entries whose base64 payload fails to decode (`decodeOk` stands for
`base64.b64decode` succeeding), and otherwise yield the target
`gs://bucket/reference/{user}/{job}/face_{idx}.{ext}` URI. -/
def upload_one (bucket user_id job_id : String) (decodeOk : String → Bool)
    (idx : Nat) (image_b64 : String) : Except String (Option String) :=
  if image_b64.isEmpty then .ok none
  else
    let parsed : Except String (String × String) :=
      if strStartsWith image_b64 "data:image" then
        match splitFirst ',' image_b64.toList with
        | none => .error "not enough values to unpack (expected 2, got 1)"
        | some (header, b64data) =>
          .ok (⟨b64data⟩,
               if containsStr ⟨header⟩ "png" then "png" else "jpg")
      else .ok (image_b64, "jpg")
    match parsed with
    | .error e => .error e
    | .ok (b64data, ext) =>
      if decodeOk b64data then
        .ok (some ("gs://" ++ bucket ++ "/reference/" ++ user_id ++ "/" ++
          job_id ++ "/face_" ++ toString idx ++ "." ++ ext))
      else .ok none

/-- The indexed loop of `upload_reference_images` (enumerate semantics:
skipped entries still consume their index). -/
def upload_loop (bucket user_id job_id : String)
    (decodeOk : String → Bool) : Nat → List String → Except String (List String)
  | _, [] => .ok []
  | idx, c :: cs =>
    match upload_one bucket user_id job_id decodeOk idx c with
    | .error e => .error e
    | .ok none => upload_loop bucket user_id job_id decodeOk (idx + 1) cs
    | .ok (some uri) =>
      match upload_loop bucket user_id job_id decodeOk (idx + 1) cs with
      | .error e => .error e
      | .ok uris => .ok (uri :: uris)

/-- `StorageService.upload_reference_images`: builds the upload tasks (any
data-URL missing its comma raises out of the whole call), then runs the
uploads; when the concurrent upload batch itself fails, the exception is
swallowed and the empty list is returned (`uploadsOk` stands for the batch
succeeding). -/
def upload_reference_images (bucket user_id : String)
    (face_captures : List String) (job_id : String)
    (decodeOk : String → Bool) (uploadsOk : Bool) :
    Except String (List String) :=
  match upload_loop bucket user_id job_id decodeOk 0 face_captures with
  | .error e => .error e
  | .ok uris => .ok (if uploadsOk then uris else [])

/-! ## Agent fan-out orchestrator (`app/services/adk_service.py`,
collaborators from `app/services/mongodb_service.py`) -/

/-- `CRISIS_KEYWORDS` (a Python set; only membership is used). -/
def CRISIS_KEYWORDS : List String :=
  ["suicide", "kill myself", "self-harm", "hurt myself",
   "end it all", "can\x27t go on", "want to die"]

/-- `ADKAgentService.safety_agent` verdict. -/
structure SafetyVerdict where
  crisis : Bool
  note : String
  deriving Repr, DecidableEq

/-- `ADKAgentService.safety_agent`: case-insensitive substring scan of the
message against the crisis keywords; a pure function that cannot fail. -/
def safety_agent (message : String) : SafetyVerdict :=
  let msg := strToLower message
  let crisis := CRISIS_KEYWORDS.any fun k => containsStr msg k
  { crisis := crisis,
    note := if crisis then "Crisis language detected." else "clear" }

/-- `\w` of the source regexes (ASCII fragment, which covers every keyword
in the rules). -/
def isWordChar (c : Char) : Bool := c.isAlphanum || c == '_'

/-- A word boundary holds against the adjacent character (or the string
edge). All rule alternatives start and end with word characters, so `\b`
reduces to the neighbour being absent or a non-word character. -/
def boundaryOk : Option Char → Bool
  | none => true
  | some c => !isWordChar c

/-- Does the literal alternative `pat` match at the current position
(previous character `pre`), with word boundaries on both sides? -/
def wbMatchHere (pre : Option Char) (hay pat : List Char) : Bool :=
  pat.isPrefixOf hay && boundaryOk pre &&
    boundaryOk (hay.drop pat.length).head?

/-- `re.search` of a word-bounded literal alternative: try every position. -/
def wbSearchAux (pat : List Char) : Option Char → List Char → Bool
  | pre, [] => wbMatchHere pre [] pat
  | pre, c :: cs =>
    wbMatchHere pre (c :: cs) pat || wbSearchAux pat (some c) cs

/-- `re.search(r"\b(...)\b", text, re.I)` for one literal alternative
`kw` (already lower-case). -/
def wbContains (text kw : String) : Bool :=
  wbSearchAux kw.toList none (strToLower text).toList

/-- A rule pattern matches when some alternative of its alternation
matches with word boundaries. -/
def patMatches (text : String) (alts : List String) : Bool :=
  alts.any fun a => wbContains text a

/-- `_MODE_RULES`, with each regex alternation expanded into its literal
alternatives (`burn(?:out|ed)?` ↦ burn/burnout/burned,
`pros?/?cons?` ↦ the eight optional-s/slash combinations,
`trade[- ]?off` ↦ the three separator variants, `should I` lowered by
`re.I`). Insertion order of the Python dict is preserved. -/
def MODE_RULES : List (String × List (List String)) :=
  [("therapist",
    [["anxious", "anxiety", "panic", "overwhelmed", "depressed", "lonely",
      "burn", "burnout", "burned"],
     ["feel", "feeling", "emotion", "cope", "struggle", "help me", "talk"]]),
   ("decision",
    [["decide", "decision", "choose", "option",
      "procon", "procons", "proscon", "proscons",
      "pro/con", "pro/cons", "pros/con", "pros/cons",
      "tradeoff", "trade-off", "trade off", "should i"]]),
   ("brainstorm",
    [["idea", "ideas", "brainstorm", "creativ", "how might we", "what if"]])]

/-- `ADKAgentService.detect_mode`: first rule whose pattern list has a
match wins; default `"casual"`. -/
def detect_mode (message : String) : String :=
  match MODE_RULES.find? (fun r => r.2.any (patMatches message)) with
  | some r => r.1
  | none => "casual"

/-- `_POSITIVE` alternatives. -/
def POSITIVE_WORDS : List String :=
  ["happy", "relieved", "proud", "excited", "optimistic", "grateful"]

/-- `_NEGATIVE` alternatives (`burn(?:ed|out)` ↦ burned/burnout; no bare
`burn`). -/
def NEGATIVE_WORDS : List String :=
  ["sad", "anxious", "stressed", "worried", "angry", "upset", "tired",
   "burned", "burnout"]

/-- `ADKAgentService.tag_emotion`. -/
def tag_emotion (text : String) : String :=
  if text.isEmpty then "neutral"
  else if patMatches text NEGATIVE_WORDS then "anxious"
  else if patMatches text POSITIVE_WORDS then "positive"
  else "neutral"

/-- `re.findall` match count for a word-bounded literal alternation:
scan left to right; at each position the first alternative that matches
(regex alternation order) is consumed, matches do not overlap. Fuel-based
recursion; the fuel `hay.length + 1` is never exhausted because every
alternative is non-empty. -/
def countWBAux (alts : List (List Char)) :
    Nat → Option Char → List Char → Nat
  | 0, _, _ => 0
  | _ + 1, _, [] => 0
  | fuel + 1, pre, c :: cs =>
    match alts.find? (fun a => wbMatchHere pre (c :: cs) a) with
    | some a =>
      1 + countWBAux alts fuel ((c :: cs).take a.length).getLast?
            ((c :: cs).drop a.length)
    | none => countWBAux alts fuel (some c) cs

/-- `len(re.findall(r"\b(...)\b", text, re.I))`. -/
def countWB (alts : List String) (text : String) : Nat :=
  let hay := (strToLower text).toList
  countWBAux (alts.map String.toList) (hay.length + 1) none hay

/-- `ADKAgentService.quick_sentiment_score`. Python float arithmetic is
modelled exactly over `ℚ` (the score is only computed and returned, never
compared, so rounding is irrelevant to the claims). -/
def quick_sentiment_score (text : String) : ℚ :=
  if text.isEmpty then 0
  else
    let pos := countWB POSITIVE_WORDS text
    let neg := countWB NEGATIVE_WORDS text
    if pos = 0 ∧ neg = 0 then 0
    else ((pos : ℚ) - (neg : ℚ)) / (max 1 (pos + neg) : ℕ)

/-- `ADKAgentService.memory_agent`: the Mongo history fetch
(`get_conversation_history`) with the agent-level `try/except` that
substitutes `[]` on any error; `history or []` is the identity on the list
the collaborator returns. -/
def memory_agent (fetchHistory : Except String (List JVal)) : List JVal :=
  match fetchHistory with
  | .ok h => h
  | .error _ => []

/-- `ADKAgentService.pattern_agent`: short-circuits to `[]` when the
Snowflake connection is absent; otherwise the trend query
(`analyze_emotional_trends`, which may return `None`, modelled as
`Option`), with `or []` and the catch-all substituting `[]`. -/
def pattern_agent (snowConn : Bool)
    (analyze : Except String (Option (List JVal))) : List JVal :=
  if !snowConn then []
  else
    match analyze with
    | .ok (some t) => t
    | .ok none => []
    | .error _ => []

/-- `MongoDBService.get_user_profile`: `find_one` result (a document or
`None`), with the service-level `try/except` that substitutes `None` on
any error. -/
def get_user_profile (find_one : Except String (Option JVal)) :
    Option JVal :=
  match find_one with
  | .ok p => p
  | .error _ => none

/-- The context dictionary `ADKAgentService.orchestrate` returns. -/
structure AgentContext where
  memories : List JVal
  trends : List JVal
  safety : SafetyVerdict
  suggested_mode : String
  voice_id : JVal
  avatar_reference_urls : JVal
  deriving Repr

/-- `ADKAgentService.orchestrate`: gathers the four tasks (memory, trend,
safety, profile; the concurrent `asyncio.gather` is embedded by computing
all four results — each is independent of the others), then assembles the
context: `mem or []` / `trends or []` are identities on lists,
`profile.get(...) if profile else ...` uses Python truthiness of the
profile document. -/
def orchestrate (user_message : String)
    (fetchHistory : Except String (List JVal))
    (snowConn : Bool) (analyze : Except String (Option (List JVal)))
    (findProfile : Except String (Option JVal)) : AgentContext :=
  let mem := memory_agent fetchHistory
  let trends := pattern_agent snowConn analyze
  let safety := safety_agent user_message
  let profile := get_user_profile findProfile
  let profTruthy := match profile with
    | some p => truthy p
    | none => false
  { memories := mem
    trends := trends
    safety := safety
    suggested_mode := detect_mode user_message
    voice_id := if profTruthy then dget (profile.getD .null) "voice_id"
                else .null
    avatar_reference_urls :=
      if profTruthy then dgetD (profile.getD .null) "avatar_reference_urls" (.arr [])
      else .arr [] }

/-- The summary dictionary `log_after_chat` returns. -/
structure ChatLogSummary where
  emotional_tag : String
  sentiment_score : ℚ
  mode : String
  deriving Repr, DecidableEq

/-- The persistence attempts `log_after_chat` makes, with their outcomes
(each outcome is swallowed by its own `try/except: pass`). -/
inductive LogWrite where
  | mongoSave : Except String Unit → LogWrite
  | snowLog : Except String Unit → LogWrite
  deriving Repr

/-- `ADKAgentService.log_after_chat`: derives mode/emotion/sentiment, then
attempts the Mongo history write and — when the Snowflake connection
exists — the analytics write, each wrapped in `try/except: pass`
(`mongoSave` / `snowLog` are the write outcomes). Returns the summary and
the trace of attempted writes. `mode or self.detect_mode(...)` treats
`None` and `""` as absent. -/
def log_after_chat (user_message ai_response : String)
    (mode : Option String) (mongoSave : Except String Unit)
    (snowConn : Bool) (snowLog : Except String Unit) :
    ChatLogSummary × List LogWrite :=
  let mode_final := match mode with
    | some m => if m.isEmpty then detect_mode user_message else m
    | none => detect_mode user_message
  let emotion := tag_emotion (user_message ++ " " ++ ai_response)
  let sentiment := quick_sentiment_score ai_response
  let writes := [LogWrite.mongoSave mongoSave] ++
    (if snowConn then [LogWrite.snowLog snowLog] else [])
  ({ emotional_tag := emotion, sentiment_score := sentiment,
     mode := mode_final }, writes)

/-! ## Shape lemmas for `create_job` -/

/-- When the first reference is a `gs://` URI, `_create_job` skips the
upload and goes straight to `create_job_after_refs` with the first three
references. -/
theorem create_job_gcs_shape (osu uid p f : String) (rest : List String)
    (d : Nat) (jid : String) (now now2 : Nat)
    (upload : List String → Except String (List String))
    (submit : RequestBody → Except String String)
    (hgs : strStartsWith f "gs://" = true) :
    create_job osu uid p (f :: rest) d jid now now2 upload submit =
      create_job_after_refs osu uid p jid d now now2 submit
        (.ok ((f :: rest).take 3)) [] := by
  simp only [create_job, hgs, if_true]

/-- When the first reference is not a `gs://` URI, `_create_job` uploads
the first three references and continues with whatever the upload
returned. -/
theorem create_job_upload_shape (osu uid p f : String) (rest : List String)
    (d : Nat) (jid : String) (now now2 : Nat)
    (upload : List String → Except String (List String))
    (submit : RequestBody → Except String String)
    (hgs : strStartsWith f "gs://" = false) :
    create_job osu uid p (f :: rest) d jid now now2 upload submit =
      create_job_after_refs osu uid p jid d now now2 submit
        (upload ((f :: rest).take 3)) [.uploadImages ((f :: rest).take 3)] := by
  simp only [create_job, hgs, Bool.false_eq_true, if_false]

/-- On a non-empty reference list, `create_job_after_refs` builds the body
from exactly those references and submits it. -/
theorem create_job_after_refs_ok (osu uid p jid : String) (d now now2 : Nat)
    (submit : RequestBody → Except String String) (u : String)
    (us : List String) (calls : List NetCall) :
    create_job_after_refs osu uid p jid d now now2 submit (.ok (u :: us))
        calls =
      match submit (mkBody osu p jid (u :: us) d) with
      | .error e =>
        (mkFailedJob jid uid e now now2,
         calls ++ [.submitLongRunning (mkBody osu p jid (u :: us) d)])
      | .ok opname =>
        (mkSubmittedJob jid uid opname now,
         calls ++ [.submitLongRunning (mkBody osu p jid (u :: us) d)]) := by
  simp only [create_job_after_refs, List.isEmpty_cons, Bool.false_eq_true,
    if_false]

/-! ## Claims -/

/-- Claim C1: a `createJob` call whose reference-artifact list is empty
returns a job in state Failed with a failure reason recorded and no remote
handle, and attempts no network call (no upload, no remote submission). -/
theorem C1_empty_refs_fail_without_network (osu uid p : String) (d : Nat)
    (jid : String) (now now2 : Nat)
    (upload : List String → Except String (List String))
    (submit : RequestBody → Except String String) :
    (create_job osu uid p [] d jid now now2 upload submit).1.status =
        "failed" ∧
    (create_job osu uid p [] d jid now now2 upload submit).1.operation =
        none ∧
    (create_job osu uid p [] d jid now now2 upload submit).1.error =
        some (.str "No avatar reference images found for video generation.") ∧
    (create_job osu uid p [] d jid now now2 upload submit).2 = [] := by
  simp [create_job, mkFailedJob]

/-- With a non-empty reference list the call trace is the prior calls plus
exactly one submission, whatever the submission outcome. -/
theorem create_job_after_refs_ok_calls (osu uid p jid : String)
    (d now now2 : Nat) (submit : RequestBody → Except String String)
    (u : String) (us : List String) (calls : List NetCall) :
    (create_job_after_refs osu uid p jid d now now2 submit (.ok (u :: us))
      calls).2 = calls ++ [.submitLongRunning (mkBody osu p jid (u :: us) d)] := by
  rw [create_job_after_refs_ok]
  cases submit (mkBody osu p jid (u :: us) d) <;> rfl

/-- A failed reference step adds no further calls. -/
theorem create_job_after_refs_err_calls (osu uid p jid : String)
    (d now now2 : Nat) (submit : RequestBody → Except String String)
    (e : String) (calls : List NetCall) :
    (create_job_after_refs osu uid p jid d now now2 submit (.error e)
      calls).2 = calls := rfl

/-- An empty reference result adds no further calls. -/
theorem create_job_after_refs_nil_calls (osu uid p jid : String)
    (d now now2 : Nat) (submit : RequestBody → Except String String)
    (calls : List NetCall) :
    (create_job_after_refs osu uid p jid d now now2 submit (.ok [])
      calls).2 = calls := rfl

/-- Whatever the reference outcome, `create_job_after_refs` only appends
to the calls already made. -/
theorem create_job_after_refs_calls (osu uid p jid : String)
    (d now now2 : Nat) (submit : RequestBody → Except String String)
    (refs : Except String (List String)) (calls : List NetCall) :
    ∃ extra, (create_job_after_refs osu uid p jid d now now2 submit refs
      calls).2 = calls ++ extra := by
  unfold create_job_after_refs
  cases refs with
  | error e => exact ⟨[], by simp⟩
  | ok uris =>
    cases uris with
    | nil => exact ⟨[], by simp⟩
    | cons u us =>
      simp only [List.isEmpty_cons, Bool.false_eq_true, if_false]
      cases submit (mkBody osu p jid (u :: us) d) with
      | error e => exact ⟨_, rfl⟩
      | ok opname => exact ⟨_, rfl⟩

/-- Every submission body `create_job` ever sends carries the requested
duration, and a returned job that has a remote handle is exactly the
submitted record (state `submitted`, progress 0). -/
theorem create_job_submit_props (osu uid p : String) (fcs : List String)
    (d : Nat) (jid : String) (now now2 : Nat)
    (upload : List String → Except String (List String))
    (submit : RequestBody → Except String String) :
    (∀ body, NetCall.submitLongRunning body ∈
        (create_job osu uid p fcs d jid now now2 upload submit).2 →
      body.durationSeconds = d) ∧
    ((create_job osu uid p fcs d jid now now2 upload
        submit).1.operation.isSome = true →
      (create_job osu uid p fcs d jid now now2 upload submit).1.status =
          "submitted" ∧
      (create_job osu uid p fcs d jid now now2 upload submit).1.progress =
          some 0) := by
  cases fcs with
  | nil => simp [create_job, mkFailedJob]
  | cons f rest =>
    by_cases hgs : strStartsWith f "gs://"
    · rw [create_job_gcs_shape osu uid p f rest d jid now now2 upload
        submit hgs, List.take_succ_cons, create_job_after_refs_ok]
      cases submit (mkBody osu p jid (f :: rest.take 2) d) with
      | error e => simp [mkFailedJob, mkBody]
      | ok opname => simp [mkSubmittedJob, mkBody]
    · rw [create_job_upload_shape osu uid p f rest d jid now now2 upload
        submit (by simpa using hgs)]
      cases upload ((f :: rest).take 3) with
      | error e => simp [create_job_after_refs, mkFailedJob]
      | ok uris =>
        cases uris with
        | nil => simp [create_job_after_refs, mkFailedJob]
        | cons u us =>
          rw [create_job_after_refs_ok]
          cases submit (mkBody osu p jid (u :: us) d) with
          | error e => simp [mkFailedJob, mkBody]
          | ok opname => simp [mkSubmittedJob, mkBody]

/-- Claim C10: for a non-empty reference list, `_create_job` classifies
the whole list by its first element only. First element `gs://`-prefixed:
no upload, and any submitted body carries the first three elements
verbatim (no validation of the rest). First element not `gs://`-prefixed:
the first three elements are handed to the upload as raw bytes, even if
later elements are storage references. -/
theorem C10_first_element_classifies (osu uid p f : String)
    (rest : List String) (d : Nat) (jid : String) (now now2 : Nat)
    (upload : List String → Except String (List String))
    (submit : RequestBody → Except String String) (b : Bool)
    (hshape : strStartsWith f "gs://" = b) :
    if b then
      (∀ l, NetCall.uploadImages l ∉
        (create_job osu uid p (f :: rest) d jid now now2 upload submit).2) ∧
      (∀ body, NetCall.submitLongRunning body ∈
          (create_job osu uid p (f :: rest) d jid now now2 upload
            submit).2 →
        body.referenceImages = ((f :: rest).take 3).map fun uri =>
          { gcsUri := uri, mimeType := guess_mime uri })
    else
      NetCall.uploadImages ((f :: rest).take 3) ∈
        (create_job osu uid p (f :: rest) d jid now now2 upload submit).2 := by
  cases b with
  | false =>
    simp only [Bool.false_eq_true, if_false]
    rw [create_job_upload_shape osu uid p f rest d jid now now2 upload
      submit hshape]
    obtain ⟨extra, hx⟩ := create_job_after_refs_calls osu uid p jid d now
      now2 submit (upload ((f :: rest).take 3))
      [.uploadImages ((f :: rest).take 3)]
    rw [hx]
    simp
  | true =>
    simp only [if_true]
    rw [create_job_gcs_shape osu uid p f rest d jid now now2 upload
      submit hshape, List.take_succ_cons, create_job_after_refs_ok]
    cases submit (mkBody osu p jid (f :: rest.take 2) d) with
    | error e => simp [mkBody]
    | ok opname => simp [mkBody]

/-- Claim C10 witness: a mixed list whose first element is a `gs://` URI
is used verbatim with no upload, the raw-looking second element
included. -/
theorem C10_witness :
    (∀ l, NetCall.uploadImages l ∉
      (create_job "gs://out/" "u1" "smile" ["gs://b/a.jpg", "rawbytes"] 8
        "j" 0 1 (fun x => .ok x) (fun _ => .ok "op")).2) ∧
    (∀ body, NetCall.submitLongRunning body ∈
        (create_job "gs://out/" "u1" "smile" ["gs://b/a.jpg", "rawbytes"] 8
          "j" 0 1 (fun x => .ok x) (fun _ => .ok "op")).2 →
      body.referenceImages =
        (["gs://b/a.jpg", "rawbytes"].take 3).map fun uri =>
          { gcsUri := uri, mimeType := guess_mime uri }) := by
  have h := C10_first_element_classifies "gs://out/" "u1" "smile"
    "gs://b/a.jpg" ["rawbytes"] 8 "j" 0 1 (fun x => .ok x)
    (fun _ => .ok "op") true (by decide)
  simpa using h

/-- Claim C5: with a non-empty reference list, raw vs stable is decided
from the shape of the input alone. A list of already-stable `gs://`
references: no upload, at most three of them used as-is in the submitted
body. A list of raw (non-`gs://`) data: at most three are handed to the
ArtifactStore upload, and the stable references it returns are the ones
used in the submitted body. -/
theorem C5_shape_decides_upload (osu uid p f : String) (rest : List String)
    (d : Nat) (jid : String) (now now2 : Nat)
    (upload : List String → Except String (List String))
    (submit : RequestBody → Except String String) (b : Bool)
    (hshape : ∀ y ∈ f :: rest, strStartsWith y "gs://" = b) :
    if b then
      (∀ l, NetCall.uploadImages l ∉
        (create_job osu uid p (f :: rest) d jid now now2 upload submit).2) ∧
      (∀ body, NetCall.submitLongRunning body ∈
          (create_job osu uid p (f :: rest) d jid now now2 upload
            submit).2 →
        body.referenceImages = ((f :: rest).take 3).map (fun uri =>
          { gcsUri := uri, mimeType := guess_mime uri }) ∧
        body.referenceImages.length ≤ 3)
    else
      (∀ l, NetCall.uploadImages l ∈
          (create_job osu uid p (f :: rest) d jid now now2 upload
            submit).2 →
        l = (f :: rest).take 3 ∧ l.length ≤ 3) ∧
      NetCall.uploadImages ((f :: rest).take 3) ∈
        (create_job osu uid p (f :: rest) d jid now now2 upload submit).2 ∧
      (∀ uris body, upload ((f :: rest).take 3) = .ok uris →
        NetCall.submitLongRunning body ∈
          (create_job osu uid p (f :: rest) d jid now now2 upload
            submit).2 →
        body.referenceImages = uris.map fun uri =>
          { gcsUri := uri, mimeType := guess_mime uri }) := by
  have hf : strStartsWith f "gs://" = b := hshape f (by simp)
  have hlen3 : ((f :: rest).take 3).length ≤ 3 := List.length_take_le 3 _
  cases b with
  | true =>
    simp only [if_true]
    rw [create_job_gcs_shape osu uid p f rest d jid now now2 upload
      submit hf, List.take_succ_cons, create_job_after_refs_ok_calls,
      List.nil_append]
    refine ⟨by simp, ?_⟩
    intro body hb
    rw [List.mem_singleton] at hb
    cases hb
    refine ⟨rfl, ?_⟩
    simpa [mkBody] using hlen3
  | false =>
    simp only [Bool.false_eq_true, if_false]
    rw [create_job_upload_shape osu uid p f rest d jid now now2 upload
      submit hf]
    rcases hu : upload ((f :: rest).take 3) with e | uris
    · rw [create_job_after_refs_err_calls]
      refine ⟨?_, by simp, ?_⟩
      · intro l hl
        rw [List.mem_singleton] at hl
        cases hl
        exact ⟨rfl, hlen3⟩
      · intro uris body _ hb
        simp at hb
    · cases uris with
      | nil =>
        rw [create_job_after_refs_nil_calls]
        refine ⟨?_, by simp, ?_⟩
        · intro l hl
          rw [List.mem_singleton] at hl
          cases hl
          exact ⟨rfl, hlen3⟩
        · intro uris body _ hb
          simp at hb
      | cons u us =>
        rw [create_job_after_refs_ok_calls]
        refine ⟨?_, by simp, ?_⟩
        · intro l hl
          simp only [List.mem_append, List.mem_singleton] at hl
          rcases hl with hl | hl
          · cases hl
            exact ⟨rfl, hlen3⟩
          · cases hl
        · intro uris body huris hb
          injection huris with h2
          subst h2
          simp only [List.mem_append, List.mem_singleton] at hb
          rcases hb with hb | hb
          · cases hb
          · cases hb
            rfl

/-- Claim C5 witness: four raw base64 captures — the first three are
uploaded, and the submitted body carries exactly the stable references the
upload produced. -/
theorem C5_witness :
    (NetCall.uploadImages (["r0", "r1", "r2", "r3"].take 3) ∈
      (create_job "gs://out/" "u1" "smile" ["r0", "r1", "r2", "r3"] 8 "j"
        0 1 (fun _ => .ok ["gs://bkt/f0.jpg", "gs://bkt/f1.jpg"])
        (fun _ => .ok "op")).2) ∧
    (∀ body, NetCall.submitLongRunning body ∈
        (create_job "gs://out/" "u1" "smile" ["r0", "r1", "r2", "r3"] 8 "j"
          0 1 (fun _ => .ok ["gs://bkt/f0.jpg", "gs://bkt/f1.jpg"])
          (fun _ => .ok "op")).2 →
      body.referenceImages =
        ["gs://bkt/f0.jpg", "gs://bkt/f1.jpg"].map fun uri =>
          { gcsUri := uri, mimeType := guess_mime uri }) := by
  have h := C5_shape_decides_upload "gs://out/" "u1" "smile" "r0"
    ["r1", "r2", "r3"] 8 "j" 0 1
    (fun _ => .ok ["gs://bkt/f0.jpg", "gs://bkt/f1.jpg"])
    (fun _ => .ok "op") false (by decide)
  simp only [Bool.false_eq_true, if_false] at h
  exact ⟨h.2.1, fun body hb => h.2.2 _ body rfl hb⟩

/-- Claim C9: `generate_avatar_video` ignores the requested duration —
the job it creates is the one `_create_job` builds with the fixed
reference-to-video duration of 8 seconds, every submitted body carries
`durationSeconds = 8`, and a job that obtained a remote handle is in state
`submitted` with progress 0. -/
theorem C9_duration_clamped_to_8 (osu uid p : String) (fcs : List String)
    (d : Nat) (jid : String) (now now2 : Nat)
    (upload : List String → Except String (List String))
    (submit : RequestBody → Except String String) :
    (generate_avatar_video osu uid p fcs d jid now now2 upload submit =
      create_job osu uid p fcs 8 jid now now2 upload submit) ∧
    (∀ body, NetCall.submitLongRunning body ∈
        (generate_avatar_video osu uid p fcs d jid now now2 upload
          submit).2 →
      body.durationSeconds = 8) ∧
    ((generate_avatar_video osu uid p fcs d jid now now2 upload
        submit).1.operation.isSome = true →
      (generate_avatar_video osu uid p fcs d jid now now2 upload
        submit).1.status = "submitted" ∧
      (generate_avatar_video osu uid p fcs d jid now now2 upload
        submit).1.progress = some 0) := by
  refine ⟨rfl, ?_, ?_⟩
  · exact (create_job_submit_props osu uid p fcs 8 jid now now2 upload
      submit).1
  · exact (create_job_submit_props osu uid p fcs 8 jid now now2 upload
      submit).2

/-- Claim C9 witness: the spec scenario — a stable reference and a
duration hint of 30 still submit with 8 seconds and return a submitted
job with progress 0. -/
theorem C9_witness :
    (generate_avatar_video "gs://out/" "u1" "smile" ["gs://bucket/a.jpg"]
        30 "j" 0 1 (fun x => .ok x) (fun _ => .ok "op")).1.status =
      "submitted" ∧
    (generate_avatar_video "gs://out/" "u1" "smile" ["gs://bucket/a.jpg"]
        30 "j" 0 1 (fun x => .ok x) (fun _ => .ok "op")).1.progress =
      some 0 := by
  exact (C9_duration_clamped_to_8 "gs://out/" "u1" "smile"
    ["gs://bucket/a.jpg"] 30 "j" 0 1 (fun x => .ok x)
    (fun _ => .ok "op")).2.2 (by decide)

/-- Claim C2 counterexample: a job that reached terminal state
`completed` through polling keeps its remote handle, so a later
`get_job_status` call does re-invoke the remote poll, and a failing poll
moves the stored record out of the terminal state (to `"error"`) — the
claimed terminal stickiness fails at this concrete input. -/
theorem C2_counterexample :
    ((get_job_status
        { job_id := "j1", user_id := "u1", status := "completed",
          operation := some "op-1", progress := some 100,
          video_url := some "https://v/x.mp4", error := none,
          created_at := 0, updated_at := 1 }
        (.error "poll timeout") (fun _ _ => "") 2).1.status ≠
      "completed") ∧
    (get_job_status
        { job_id := "j1", user_id := "u1", status := "completed",
          operation := some "op-1", progress := some 100,
          video_url := some "https://v/x.mp4", error := none,
          created_at := 0, updated_at := 1 }
        (.error "poll timeout") (fun _ _ => "") 2).2 = true := by
  decide

/-- Claim C2 (amended): only a job with no remote handle (terminal since
submission) is returned unchanged without polling; a job that kept a
remote handle is re-polled on every call — a poll that repeats the same
done outcome reproduces the same terminal state (`completed` with
progress 100, or `failed` with progress 0 for a done-with-error payload),
while a failing poll moves the record to the recoverable `"error"`
status, keeping the handle. -/
theorem C2_terminal_stability (j : Job) (h e : String) (op : JVal)
    (poll : Except String JVal) (sign : String → String → String)
    (now : Nat) :
    (j.operation = none → get_job_status j poll sign now = (j, false)) ∧
    (j.operation = some h → (get_job_status j poll sign now).2 = true) ∧
    (j.operation = some h → truthy (dget op "done") = true →
      (hasKey op "error" && truthy (dget op "error")) = false →
      (get_job_status j (.ok op) sign now).1.status = "completed" ∧
      (get_job_status j (.ok op) sign now).1.progress = some 100) ∧
    (j.operation = some h → truthy (dget op "done") = true →
      (hasKey op "error" && truthy (dget op "error")) = true →
      (get_job_status j (.ok op) sign now).1.status = "failed" ∧
      (get_job_status j (.ok op) sign now).1.progress = some 0) ∧
    (j.operation = some h →
      (get_job_status j (.error e) sign now).1.status = "error" ∧
      (get_job_status j (.error e) sign now).1.operation = some h) := by
  refine ⟨?_, ?_, ?_, ?_, ?_⟩
  · intro hop
    simp [get_job_status, hop]
  · intro hop
    cases poll with
    | error e2 => simp [get_job_status, hop]
    | ok op2 =>
      simp only [get_job_status, hop]
      split_ifs <;> rfl
  · intro hop hdone herr
    simp [get_job_status, hop, hdone, herr]
  · intro hop hdone herr
    simp [get_job_status, hop, hdone, herr]
  · intro hop
    simp [get_job_status, hop]

/-- Claim C2 witness: the amended behaviour at concrete records — a
submission-failed job is returned untouched without polling; a completed
job re-polled with the same done response stays completed; with a
done-with-error response a job polls to failed; a failing poll turns a
completed job into an `"error"` record that keeps its handle. -/
theorem C2_witness :
    (get_job_status
        { job_id := "jf", user_id := "u", status := "failed",
          operation := none, progress := some 0, video_url := none,
          error := some (.str "boom"), created_at := 0, updated_at := 0 }
        (.ok .null) (fun _ _ => "") 9 =
      ({ job_id := "jf", user_id := "u", status := "failed",
         operation := none, progress := some 0, video_url := none,
         error := some (.str "boom"), created_at := 0, updated_at := 0 },
       false)) ∧
    ((get_job_status
        { job_id := "j1", user_id := "u1", status := "completed",
          operation := some "op-1", progress := some 100,
          video_url := some "https://v/x.mp4", error := none,
          created_at := 0, updated_at := 1 }
        (.ok (.obj [("done", .bool true)])) (fun _ _ => "") 9).1.status =
      "completed") ∧
    ((get_job_status
        { job_id := "j1", user_id := "u1", status := "completed",
          operation := some "op-1", progress := some 100,
          video_url := some "https://v/x.mp4", error := none,
          created_at := 0, updated_at := 1 }
        (.ok (.obj [("done", .bool true),
           ("error", .str "quota exceeded")]))
        (fun _ _ => "") 9).1.status = "failed") ∧
    ((get_job_status
        { job_id := "j1", user_id := "u1", status := "completed",
          operation := some "op-1", progress := some 100,
          video_url := some "https://v/x.mp4", error := none,
          created_at := 0, updated_at := 1 }
        (.error "poll timeout") (fun _ _ => "") 9).1.status = "error") := by
  refine ⟨?_, ?_, ?_, ?_⟩
  · exact (C2_terminal_stability
      { job_id := "jf", user_id := "u", status := "failed",
        operation := none, progress := some 0, video_url := none,
        error := some (.str "boom"), created_at := 0, updated_at := 0 }
      "op-1" "poll timeout" .null (.ok .null) (fun _ _ => "") 9).1 rfl
  · exact ((C2_terminal_stability
      { job_id := "j1", user_id := "u1", status := "completed",
        operation := some "op-1", progress := some 100,
        video_url := some "https://v/x.mp4", error := none,
        created_at := 0, updated_at := 1 }
      "op-1" "poll timeout" (.obj [("done", .bool true)])
      (.ok (.obj [("done", .bool true)])) (fun _ _ => "") 9).2.2.1 rfl
      (by decide) (by decide)).1
  · exact ((C2_terminal_stability
      { job_id := "j1", user_id := "u1", status := "completed",
        operation := some "op-1", progress := some 100,
        video_url := some "https://v/x.mp4", error := none,
        created_at := 0, updated_at := 1 }
      "op-1" "poll timeout"
      (.obj [("done", .bool true), ("error", .str "quota exceeded")])
      (.ok (.obj [("done", .bool true), ("error", .str "quota exceeded")]))
      (fun _ _ => "") 9).2.2.2.1 rfl (by decide) (by decide)).1
  · exact ((C2_terminal_stability
      { job_id := "j1", user_id := "u1", status := "completed",
        operation := some "op-1", progress := some 100,
        video_url := some "https://v/x.mp4", error := none,
        created_at := 0, updated_at := 1 }
      "op-1" "poll timeout" .null (.ok .null) (fun _ _ => "") 9).2.2.2.2
      rfl).1

/-- Claim C3 counterexample: a poll failure does not leave the job in its
prior non-terminal state — a `processing` job whose poll raises is moved
to status `"error"`. -/
theorem C3_counterexample :
    ((get_job_status
        { job_id := "j2", user_id := "u2", status := "processing",
          operation := some "op-2", progress := some 10, video_url := none,
          error := none, created_at := 0, updated_at := 3 }
        (.error "connection reset") (fun _ _ => "") 4).1.status ≠
      "processing") ∧
    (get_job_status
        { job_id := "j2", user_id := "u2", status := "processing",
          operation := some "op-2", progress := some 10, video_url := none,
          error := none, created_at := 0, updated_at := 3 }
        (.error "connection reset") (fun _ _ => "") 4).1.status =
      "error" := by
  decide

/-- Claim C3 (amended): on a poll failure `get_job_status` moves the job
to the recoverable `"error"` status (rather than leaving the prior
non-terminal status unchanged), records the error text, and keeps the
job, its remote handle, its progress and its result field intact; a later
call re-polls, and a successful not-done poll resumes the normal
`processing` transition. -/
theorem C3_poll_failure_is_recoverable (j : Job) (h e : String)
    (op2 : JVal) (poll2 : Except String JVal)
    (sign : String → String → String) (now now2 : Nat)
    (hop : j.operation = some h)
    (hnt : j.status ≠ "completed" ∧ j.status ≠ "failed") :
    (get_job_status j (.error e) sign now).1 =
      { j with status := "error", error := some (.str e),
               updated_at := now } ∧
    (get_job_status j (.error e) sign now).1.operation = some h ∧
    (get_job_status j (.error e) sign now).1.progress = j.progress ∧
    (get_job_status j (.error e) sign now).1.video_url = j.video_url ∧
    (get_job_status (get_job_status j (.error e) sign now).1 poll2 sign
      now2).2 = true ∧
    (truthy (dget op2 "done") = false →
      (get_job_status (get_job_status j (.error e) sign now).1 (.ok op2)
        sign now2).1.status = "processing") := by
  have h1 : (get_job_status j (.error e) sign now).1 =
      { j with status := "error", error := some (.str e),
               updated_at := now } := by
    simp [get_job_status, hop]
  refine ⟨h1, ?_, ?_, ?_, ?_, ?_⟩
  · rw [h1]
    exact hop
  · rw [h1]
  · rw [h1]
  · rw [h1]
    cases poll2 with
    | error e2 => simp [get_job_status, hop]
    | ok op2 =>
      simp only [get_job_status, hop]
      split_ifs <;> rfl
  · intro hdone
    rw [h1]
    simp [get_job_status, hop, hdone]

/-- Claim C3 witness: a concrete processing job with a failed poll keeps
its handle and progress, records the error, and a later successful
not-done poll returns it to `processing`. -/
theorem C3_witness :
    ((get_job_status
        { job_id := "j2", user_id := "u2", status := "processing",
          operation := some "op-2", progress := some 10, video_url := none,
          error := none, created_at := 0, updated_at := 3 }
        (.error "connection reset") (fun _ _ => "") 4).1.operation =
      some "op-2") ∧
    ((get_job_status
        { job_id := "j2", user_id := "u2", status := "processing",
          operation := some "op-2", progress := some 10, video_url := none,
          error := none, created_at := 0, updated_at := 3 }
        (.error "connection reset") (fun _ _ => "") 4).1.progress =
      some 10) ∧
    ((get_job_status
        (get_job_status
          { job_id := "j2", user_id := "u2", status := "processing",
            operation := some "op-2", progress := some 10,
            video_url := none, error := none, created_at := 0,
            updated_at := 3 }
          (.error "connection reset") (fun _ _ => "") 4).1
        (.ok (.obj [("done", .bool false)])) (fun _ _ => "") 5).1.status =
      "processing") := by
  have h := C3_poll_failure_is_recoverable
    { job_id := "j2", user_id := "u2", status := "processing",
      operation := some "op-2", progress := some 10, video_url := none,
      error := none, created_at := 0, updated_at := 3 }
    "op-2" "connection reset" (.obj [("done", .bool false)])
    (.ok (.obj [("done", .bool false)])) (fun _ _ => "") 4 5 rfl
    (by decide)
  exact ⟨h.2.1, h.2.2.1, h.2.2.2.2.2 (by decide)⟩

/-- Claim C4: at the failing input — a successfully submitted job, whose
`progress` key was initialised to 0, polled while the remote reports not
done — the state becomes `processing` but the progress stays 0: the
`job.setdefault("progress", 10)` floor is dead code for every job this
service creates, firing only for a record with no progress key at all. -/
theorem C4_progress_floor_is_dead_code :
    ((get_job_status (mkSubmittedJob "j3" "u3" "op-3" 0)
        (.ok (.obj [("done", .bool false)])) (fun _ _ => "") 1).1.status =
      "processing") ∧
    ((get_job_status (mkSubmittedJob "j3" "u3" "op-3" 0)
        (.ok (.obj [("done", .bool false)])) (fun _ _ => "") 1).1.progress =
      some 0) ∧
    ((get_job_status
        { mkSubmittedJob "j3" "u3" "op-3" 0 with progress := none }
        (.ok (.obj [("done", .bool false)])) (fun _ _ => "") 1).1.progress =
      some 10) := by
  decide

/-- A direct hit of the dict branch satisfies the locator pattern. -/
theorem strHit_sound (v : JVal) (u : String) (h : strHit v = some u) :
    isVideoUrlStr u = true := by
  cases v <;> simp [strHit] at h
  rcases h with ⟨h1, h2⟩
  subst h2
  exact h1

mutual

/-- Everything `_find_any_video_url` returns satisfies the locator
pattern (scheme prefix plus media-extension substring). -/
theorem find_any_video_url_sound : ∀ (v : JVal) (u : String),
    find_any_video_url v = some u → isVideoUrlStr u = true
  | .obj fs, u, h => favFields_sound fs u h
  | .arr xs, u, h => favItems_sound xs u h
  | .null, _, h => by simp [find_any_video_url] at h
  | .bool b, _, h => by simp [find_any_video_url] at h
  | .str s, _, h => by simp [find_any_video_url] at h

theorem favFields_sound : ∀ (fs : List (String × JVal)) (u : String),
    favFields fs = some u → isVideoUrlStr u = true
  | [], u, h => by simp [favFields] at h
  | (k, v) :: rest, u, h => by
    rw [favFields] at h
    cases h1 : strHit v with
    | some s =>
      rw [h1] at h
      cases h
      exact strHit_sound v u h1
    | none =>
      rw [h1] at h
      cases h2 : find_any_video_url v with
      | some s =>
        rw [h2] at h
        cases h
        exact find_any_video_url_sound v u h2
      | none =>
        rw [h2] at h
        exact favFields_sound rest u h

theorem favItems_sound : ∀ (xs : List JVal) (u : String),
    favItems xs = some u → isVideoUrlStr u = true
  | [], u, h => by simp [favItems] at h
  | v :: rest, u, h => by
    rw [favItems] at h
    cases h2 : find_any_video_url v with
    | some s =>
      rw [h2] at h
      cases h
      exact find_any_video_url_sound v u h2
    | none =>
      rw [h2] at h
      exact favItems_sound rest u h

end

/-- Claim C6 counterexample: the fallback scan accepts a media extension
anywhere in the string (`ext in v`), not only at its end — a done
response whose only candidate is `https://h/v.mp4?sig=1` (which ends in
none of the known extensions) still completes the job with that string as
the result reference, refuting the claimed ending-in criterion. -/
theorem C6_counterexample :
    strEndsWith "https://h/v.mp4?sig=1" ".mp4" = false ∧
    strEndsWith "https://h/v.mp4?sig=1" ".mov" = false ∧
    strEndsWith "https://h/v.mp4?sig=1" ".webm" = false ∧
    strEndsWith "https://h/v.mp4?sig=1" ".mkv" = false ∧
    (get_job_status
        { job_id := "j4", user_id := "u4", status := "processing",
          operation := some "op-4", progress := some 10, video_url := none,
          error := none, created_at := 0, updated_at := 1 }
        (.ok (.obj [("done", .bool true),
          ("response", .obj [("oddKey", .obj [("inner",
            .str "https://h/v.mp4?sig=1")])])]))
        (fun _ _ => "") 2).1.video_url = some "https://h/v.mp4?sig=1" := by
  decide

/-- Claim C6 (amended): on a done-success poll the job completes with
progress 100 and its result reference is the extracted locator — the
well-known fields first; when those yield nothing, the recursive scan of
the response (then of the whole operation) for any string with a storage
or HTTP scheme that contains a known media extension; a `gs://` locator
is exchanged through the signed-URL path for a retrieval URL, any other
locator is used as-is; and every locator the fallback produces does match
the scheme-plus-extension pattern. -/
theorem C6_locator_extraction (j : Job) (h : String) (op : JVal)
    (sign : String → String → String) (now : Nat)
    (hop : j.operation = some h)
    (hdone : truthy (dget op "done") = true)
    (herr : (hasKey op "error" && truthy (dget op "error")) = false) :
    (get_job_status j (.ok op) sign now).1.status = "completed" ∧
    (get_job_status j (.ok op) sign now).1.progress = some 100 ∧
    (get_job_status j (.ok op) sign now).1.video_url =
      (match extract_video_uri op with
       | some u =>
         some (if strStartsWith u "gs://" then get_signed_url sign u else u)
       | none => none) ∧
    (wellknown_video_uri op = none →
      extract_video_uri op =
        (match find_any_video_url (respOf op) with
         | some u => some u
         | none => find_any_video_url op)) ∧
    (∀ u, wellknown_video_uri op = none → extract_video_uri op = some u →
      isVideoUrlStr u = true) := by
  refine ⟨?_, ?_, ?_, ?_, ?_⟩
  · simp [get_job_status, hop, hdone, herr]
  · simp [get_job_status, hop, hdone, herr]
  · simp [get_job_status, hop, hdone, herr]
  · intro hw
    simp [extract_video_uri, hw]
  · intro u hw hx
    rw [extract_video_uri, hw] at hx
    cases h2 : find_any_video_url (respOf op) with
    | some s =>
      rw [h2] at hx
      cases hx
      exact find_any_video_url_sound _ u h2
    | none =>
      rw [h2] at hx
      exact find_any_video_url_sound op u hx

/-- Claim C6 witness: a done response with no well-known field — the
nested `gs://` locator is found by the fallback scan and exchanged for
the signed retrieval URL, and the job completes with progress 100. -/
theorem C6_witness :
    ((get_job_status
        { job_id := "j5", user_id := "u5", status := "processing",
          operation := some "op-5", progress := some 10, video_url := none,
          error := none, created_at := 0, updated_at := 1 }
        (.ok (.obj [("done", .bool true),
          ("response", .obj [("oddKey", .obj [("inner",
            .str "gs://bkt/out/v.mp4")])])]))
        (fun b p => "https://signed/" ++ b ++ "/" ++ p) 2).1.status =
      "completed") ∧
    ((get_job_status
        { job_id := "j5", user_id := "u5", status := "processing",
          operation := some "op-5", progress := some 10, video_url := none,
          error := none, created_at := 0, updated_at := 1 }
        (.ok (.obj [("done", .bool true),
          ("response", .obj [("oddKey", .obj [("inner",
            .str "gs://bkt/out/v.mp4")])])]))
        (fun b p => "https://signed/" ++ b ++ "/" ++ p) 2).1.progress =
      some 100) ∧
    ((get_job_status
        { job_id := "j5", user_id := "u5", status := "processing",
          operation := some "op-5", progress := some 10, video_url := none,
          error := none, created_at := 0, updated_at := 1 }
        (.ok (.obj [("done", .bool true),
          ("response", .obj [("oddKey", .obj [("inner",
            .str "gs://bkt/out/v.mp4")])])]))
        (fun b p => "https://signed/" ++ b ++ "/" ++ p) 2).1.video_url =
      some "https://signed/bkt/out/v.mp4") := by
  have h := C6_locator_extraction
    { job_id := "j5", user_id := "u5", status := "processing",
      operation := some "op-5", progress := some 10, video_url := none,
      error := none, created_at := 0, updated_at := 1 }
    "op-5"
    (.obj [("done", .bool true),
      ("response", .obj [("oddKey", .obj [("inner",
        .str "gs://bkt/out/v.mp4")])])])
    (fun b p => "https://signed/" ++ b ++ "/" ++ p) 2 rfl (by decide)
    (by decide)
  refine ⟨h.1, h.2.1, ?_⟩
  rw [h.2.2.1]
  decide

/-- Claim C7: when the memory fetch, the trend query and the profile
lookup all raise, `orchestrate` still returns a complete context — the
failing tasks are substituted with the empty list (memories, trends) and
the empty profile (null voice id, empty avatar reference list), and the
pure safety scan and mode classification are computed as usual; no
failure propagates to the caller. The statement is an equation, so it
holds whichever tasks fail and for every user and message. -/
theorem C7_fail_open_context (user_message e1 e2 e3 : String)
    (snowConn : Bool) :
    orchestrate user_message (.error e1) snowConn (.error e2)
        (.error e3) =
      { memories := [], trends := [], safety := safety_agent user_message,
        suggested_mode := detect_mode user_message, voice_id := .null,
        avatar_reference_urls := .arr [] } := by
  cases snowConn <;>
    simp [orchestrate, memory_agent, pattern_agent, get_user_profile]

/-- Claim C8: the history write and the analytics write of
`log_after_chat` are independent and invisible to the caller — the
returned summary does not depend on either write outcome, the history
write is always attempted, and the analytics write is attempted exactly
when the Snowflake connection exists, regardless of the history write
failing (each write outcome is swallowed by its own try/except). -/
theorem C8_best_effort_writes (user_message ai_response : String)
    (mode : Option String) (o1 o1b o2 o2b : Except String Unit)
    (snowConn : Bool) :
    ((log_after_chat user_message ai_response mode o1 snowConn o2).1 =
      (log_after_chat user_message ai_response mode o1b snowConn o2b).1) ∧
    ((log_after_chat user_message ai_response mode o1 snowConn o2).2 =
      [LogWrite.mongoSave o1] ++
        (if snowConn then [LogWrite.snowLog o2] else [])) ∧
    ((log_after_chat user_message ai_response mode o1 snowConn o2).1 =
      { emotional_tag := tag_emotion (user_message ++ " " ++ ai_response),
        sentiment_score := quick_sentiment_score ai_response,
        mode := match mode with
          | some m => if m.isEmpty then detect_mode user_message else m
          | none => detect_mode user_message }) := by
  refine ⟨rfl, rfl, rfl⟩

end Ekho
